import Mathlib

/-!
Verification of the session-lifecycle core and request contracts of the
SKash WhatsApp service (src/server.js), as a shallow embedding in Lean.

The embedding mirrors the JavaScript module state (whatsappClient,
qrCodeData, clientStatus), the initWhatsAppClient function with its five
event handlers, the recovery setTimeout, and the pure parts of the route
handlers (auth middleware, logout, send validation, media extension
resolution, contact formatting).
-/

set_option autoImplicit false

namespace Skash

/-! ## JavaScript value helpers -/

/-- JS truthiness for an optional string: undefined/null and the empty
string are falsy. -/
def strTruthy : Option String → Bool
  | none => false
  | some s => decide (s ≠ "")

/-- JS expression a || d for an optional string a and a string default d. -/
def jsOr (a : Option String) (d : String) : String :=
  if strTruthy a then a.getD "" else d

/-- JS expression a || b where both sides are optional strings. -/
def jsOrOpt (a b : Option String) : Option String :=
  if strTruthy a then a else b

/-! ## Client lifecycle state (src/server.js lines 66-129)

Module state: whatsappClient (null or a client object, modelled by its
construction index), qrCodeData, clientStatus.  clientsConstructed counts
invocations of the Client constructor; pendingTimers and now model the
setTimeout recovery timer in the disconnected handler (fire times are
absolute instants, the delay is 5 time-units standing for 5000 ms). -/

inductive ClientStatus
  | disconnected
  | connecting
  | connected
deriving DecidableEq, Repr

structure SessionState where
  whatsappClient : Option Nat
  qrCodeData : Option String
  clientStatus : ClientStatus
  clientsConstructed : Nat
  pendingTimers : List Nat
  now : Nat
deriving DecidableEq, Repr

/-- Process start: whatsappClient = null, qrCodeData = null,
clientStatus = 'disconnected'. -/
def initialState : SessionState :=
  { whatsappClient := none
    qrCodeData := none
    clientStatus := .disconnected
    clientsConstructed := 0
    pendingTimers := []
    now := 0 }

/-- src/server.js lines 72-129, initWhatsAppClient: unconditionally sets
clientStatus = 'connecting' and constructs a new client bound to the
session directory (directory creation and handler registration have no
session-state effect).  There is no guard on the current status. -/
def initWhatsAppClient (s : SessionState) : SessionState :=
  { s with
    clientStatus := .connecting
    whatsappClient := some s.clientsConstructed
    clientsConstructed := s.clientsConstructed + 1 }

/-- Recovery delay of the disconnected handler (setTimeout(..., 5000)). -/
def recoveryDelay : Nat := 5

/-- The five lifecycle events emitted by the external client. -/
inductive WEvent
  | qr (code : String)
  | authenticated
  | authFailure
  | ready
  | disconnectedEv
deriving DecidableEq, Repr

/-- Event handlers registered in initWhatsAppClient (lines 93-125):
  qr: qrCodeData = qr;
  authenticated: qrCodeData = null;
  auth_failure: clientStatus = 'disconnected' (handle and token kept);
  ready: clientStatus = 'connected'; qrCodeData = null;
  disconnected: clientStatus = 'disconnected'; whatsappClient = null;
    setTimeout of a recovery attempt after recoveryDelay. -/
def handleEvent (s : SessionState) (e : WEvent) : SessionState :=
  match e with
  | .qr code => { s with qrCodeData := some code }
  | .authenticated => { s with qrCodeData := none }
  | .authFailure => { s with clientStatus := .disconnected }
  | .ready => { s with clientStatus := .connected, qrCodeData := none }
  | .disconnectedEv =>
      { s with
        clientStatus := .disconnected
        whatsappClient := none
        pendingTimers := s.pendingTimers ++ [s.now + recoveryDelay] }

/-- The recovery timer callback (lines 120-124): when the earliest armed
timer is due it is consumed and, if clientStatus is still 'disconnected',
initWhatsAppClient runs again; otherwise nothing else happens.  A timer
that is not yet due does not fire. -/
def fireTimer (s : SessionState) : SessionState :=
  match s.pendingTimers with
  | [] => s
  | t :: rest =>
    if s.now < t then s
    else if s.clientStatus = .disconnected then
      initWhatsAppClient { s with pendingTimers := rest }
    else
      { s with pendingTimers := rest }

/-- POST /api/logout handler (lines 209-237), session-state part.
logoutError models the outcome of await whatsappClient.logout():
none = resolved, some msg = raised msg.  On success the handler resets
whatsappClient, clientStatus and qrCodeData; the catch branch only
reports the error and leaves all session state unchanged. -/
inductive LogoutResp
  | notInitialized
  | loggedOut
  | failed (msg : String)
deriving DecidableEq, Repr

def logoutRoute (s : SessionState) (logoutError : Option String) :
    SessionState × LogoutResp :=
  match s.whatsappClient with
  | none => (s, .notInitialized)
  | some _ =>
    match logoutError with
    | none =>
        ({ s with whatsappClient := none, clientStatus := .disconnected,
                  qrCodeData := none },
         .loggedOut)
    | some msg => (s, .failed msg)

/-- GET /api/qrcode handler (lines 165-206), session-state part: a
side-effecting initWhatsAppClient happens only when the status is not
'connected' and no client exists. -/
def qrcodeRouteState (s : SessionState) : SessionState :=
  if s.clientStatus = .connected then s
  else
    match s.whatsappClient with
    | none => initWhatsAppClient s
    | some _ => s

/-- One step of the process: a direct initWhatsAppClient call, a client
event (handlers are attached to the live client, so events fire only
while a handle exists), a logout request with either outcome, a qrcode
request, the firing of the earliest due recovery timer, or a clock
tick. -/
inductive Action
  | initCall
  | event (e : WEvent)
  | logoutOk
  | logoutErr (msg : String)
  | qrcodeCall
  | timerFire
  | tick
deriving DecidableEq, Repr

def applyAction (s : SessionState) (a : Action) : SessionState :=
  match a with
  | .initCall => initWhatsAppClient s
  | .event e =>
    match s.whatsappClient with
    | none => s
    | some _ => handleEvent s e
  | .logoutOk => (logoutRoute s none).1
  | .logoutErr msg => (logoutRoute s (some msg)).1
  | .qrcodeCall => qrcodeRouteState s
  | .timerFire => fireTimer s
  | .tick => { s with now := s.now + 1 }

/-- Execution of a sequence of steps from a state. -/
def run (s : SessionState) (acts : List Action) : SessionState :=
  acts.foldl applyAction s

/-! ## Authentication middleware (src/server.js lines 45-64) -/

/-- JS String.prototype.split(' ') on the character list: splits at every
single space, keeping empty segments ("".split gives one empty segment). -/
def splitChars : List Char → List (List Char)
  | [] => [[]]
  | c :: rest =>
    if c = ' ' then [] :: splitChars rest
    else
      match splitChars rest with
      | [] => [[c]]
      | w :: ws => (c :: w) :: ws

def jsSplitSpace (s : String) : List String :=
  (splitChars s.data).map String.mk

/-- Line 47: const token = authHeader && authHeader.split(' ')[1].
A falsy header (undefined, or the empty string) short-circuits to itself,
so an absent header yields undefined (none) while an empty header yields
the empty string; otherwise the second split segment, which is undefined
(none) when the header has no space. -/
def tokenOf (authHeader : Option String) : Option String :=
  match authHeader with
  | none => none
  | some h => if h = "" then some "" else (jsSplitSpace h)[1]?

inductive AuthDecision
  | unauthorized
  | forbidden
  | authorized
deriving DecidableEq, Repr

/-- Lines 45-64, authenticateToken: token == null gives 401, a token
different from the configured secret gives 403, otherwise next(). -/
def authenticateToken (authHeader : Option String) (secret : String) :
    AuthDecision :=
  match tokenOf authHeader with
  | none => .unauthorized
  | some t => if t = secret then .authorized else .forbidden

/-- HTTP routes registered by the app. -/
inductive Route
  | health
  | apiStatus
  | qrcode
  | logout
  | send
  | contacts
  | groups
  | groupMembers
deriving DecidableEq, Repr

/-- Every route registration except GET /health includes the
authenticateToken middleware. -/
def routeRequiresAuth : Route → Bool
  | .health => false
  | _ => true

inductive GatewayResponse (α : Type)
  | unauthorized
  | forbidden
  | handled (v : α)
deriving DecidableEq, Repr

/-- Composition of the middleware with a route handler: a rejection is
returned before the handler runs, so the session state is neither read
nor mutated on the rejection paths. -/
def guardedRoute {α : Type} (authHeader : Option String) (secret : String)
    (handler : SessionState → SessionState × α) (s : SessionState) :
    SessionState × GatewayResponse α :=
  match authenticateToken authHeader secret with
  | .unauthorized => (s, .unauthorized)
  | .forbidden => (s, .forbidden)
  | .authorized =>
    let r := handler s
    (r.1, .handled r.2)

/-! ## Media resolver (src/server.js lines 341-392) -/

/-- Lines 373-383: the fixed MIME to extension table. -/
def mimeToExt (m : String) : Option String :=
  if m = "image/jpeg" then some "jpg"
  else if m = "image/png" then some "png"
  else if m = "image/gif" then some "gif"
  else if m = "audio/mpeg" then some "mp3"
  else if m = "audio/wav" then some "wav"
  else if m = "video/mp4" then some "mp4"
  else if m = "application/pdf" then some "pdf"
  else none

/-- Lines 370-384, getExtensionFromMimeType: null for a falsy MIME type,
otherwise the table entry or null. -/
def getExtensionFromMimeType (mimeType : Option String) : Option String :=
  match mimeType with
  | none => none
  | some m => if m = "" then none else mimeToExt m

/-- The character class of the regular expression in line 390 (ASCII
letters and digits). -/
def isAsciiAlnum (c : Char) : Bool := c.isAlpha || c.isDigit

/-- First match of the line-390 pattern: a dot followed by a nonempty
alphanumeric run whose end is immediately followed by a question mark, a
hash, or the end of the string; the captured run is returned.  The scan
tries every position from the left, as the regex engine does. -/
def extMatch : List Char → Option (List Char)
  | [] => none
  | c :: rest =>
    if c = '.' then
      let run := rest.takeWhile isAsciiAlnum
      let tail := rest.drop run.length
      if run ≠ [] ∧ (tail = [] ∨ tail.head? = some '?' ∨ tail.head? = some '#')
      then some run
      else extMatch rest
    else extMatch rest

/-- Lines 387-392, getExtensionFromUrl: 'unknown' for a falsy url,
otherwise the lowercased captured run of the pattern match (the captured
characters are ASCII letters and digits, so JS toLowerCase is per-char
Char.toLower), or 'unknown' when the pattern does not match. -/
def getExtensionFromUrl (url : Option String) : String :=
  match url with
  | none => "unknown"
  | some u =>
    if u = "" then "unknown"
    else
      match extMatch u.data with
      | some run => String.mk (run.map Char.toLower)
      | none => "unknown"

/-- Line 356: getExtensionFromMimeType(contentType) ||
getExtensionFromUrl(url); every table entry is a nonempty (truthy)
string, so the fallback runs exactly when the lookup is null. -/
def fileExtension (contentType : Option String) (url : String) : String :=
  match getExtensionFromMimeType contentType with
  | some e => e
  | none => getExtensionFromUrl (some url)

structure MediaPayload where
  mimetype : Option String
  filename : String
deriving DecidableEq, Repr

/-- Lines 341-367, fetchMedia on the successful path: the payload records
the content-type header and the filename media_<timestamp>.<extension>. -/
def fetchMediaOk (contentType : Option String) (url : String) (ts : Nat) :
    MediaPayload :=
  { mimetype := contentType
    filename := "media_" ++ Nat.repr ts ++ "." ++ fileExtension contentType url }

/-! ## Send route (src/server.js lines 240-338) -/

structure SendBody where
  phone : Option String
  message : Option String
  media_url : Option String
  media_type : Option String
  caption : Option String
deriving DecidableEq, Repr

/-- Line 258: phone.replace of every non-digit with nothing, then the
fixed suffix. -/
def formatPhone (phone : String) : String :=
  String.mk (phone.data.filter Char.isDigit) ++ "@c.us"

/-- The argument shape of a whatsappClient.sendMessage call: a plain text
body, or a media payload with the caption-bearing option object (the
audio branch passes no options). -/
inductive OutPayload
  | text (body : String)
  | media (url : String) (captionOpt : Option (Option String))
deriving DecidableEq, Repr

/-- External calls a send request can make. -/
inductive ExtCall
  | fetchMediaCall (url : String)
  | sendMessageCall (dest : String) (payload : OutPayload)
deriving DecidableEq, Repr

inductive SendResult
  | notConnected
  | invalidInput
  | mediaFetchFailed
  | sent (dest : String)
deriving DecidableEq, Repr

/-- Lines 276-315: the media_type switch.  image, document, video and the
default branch all pass the option object {caption: caption || message};
the audio branch passes no options. -/
def mediaCaptionOpt (b : SendBody) : Option (Option String) :=
  if b.media_type = some "audio" then none
  else some (jsOrOpt b.caption b.message)

/-- Lines 240-338, POST /api/send handler.  mediaOk models whether
fetchMedia resolves to a payload (true) or to null (false).  The second
component lists the external calls made, in order. -/
def sendRoute (s : SessionState) (b : SendBody) (mediaOk : Bool) :
    SendResult × List ExtCall :=
  if s.whatsappClient = none ∨ s.clientStatus ≠ .connected then
    (.notConnected, [])
  else if strTruthy b.phone = false ∨
      (strTruthy b.message = false ∧ strTruthy b.media_url = false) then
    (.invalidInput, [])
  else
    let dest := formatPhone (b.phone.getD "")
    if strTruthy b.media_url then
      let url := b.media_url.getD ""
      if mediaOk then
        (.sent dest,
         [.fetchMediaCall url,
          .sendMessageCall dest (.media url (mediaCaptionOpt b))])
      else
        (.mediaFetchFailed, [.fetchMediaCall url])
    else
      (.sent dest, [.sendMessageCall dest (.text (b.message.getD ""))])

/-! ## Contacts route (src/server.js lines 395-428) -/

structure WContact where
  idSerialized : String
  name : Option String
  pushname : Option String
  number : Option String
  isMe : Bool
  isGroup : Bool
  isWAContact : Bool
  isBlocked : Bool
deriving DecidableEq, Repr

structure ContactSummary where
  id : String
  name : String
  number : Option String
  isGroup : Bool
  isBlocked : Bool
deriving DecidableEq, Repr

/-- Line 408: the filter predicate
!contact.isMe && !contact.isGroup && !contact.isWAContact. -/
def contactKeep (c : WContact) : Bool :=
  !c.isMe && !c.isGroup && !c.isWAContact

/-- Lines 409-415: the projection of a kept contact. -/
def formatContact (c : WContact) : ContactSummary :=
  { id := c.idSerialized
    name := jsOr c.name (jsOr c.pushname "Unknown")
    number := c.number
    isGroup := c.isGroup
    isBlocked := c.isBlocked }

/-- Lines 407-415: filter then map over the fetched contact list. -/
def formattedContacts (cs : List WContact) : List ContactSummary :=
  (cs.filter contactKeep).map formatContact

/-! ## Shared concrete states and helper lemmas -/

/-- A connected session with one constructed client. -/
def connectedState : SessionState :=
  { whatsappClient := some 0
    qrCodeData := none
    clientStatus := .connected
    clientsConstructed := 1
    pendingTimers := []
    now := 0 }

/-- The status values under which the session is supposed to hold a
client handle. -/
def statusLive (s : SessionState) : Prop :=
  s.clientStatus = .connecting ∨ s.clientStatus = .connected

lemma applyAction_statusLive (s : SessionState) (a : Action)
    (h : statusLive s → s.whatsappClient ≠ none) :
    statusLive (applyAction s a) → (applyAction s a).whatsappClient ≠ none := by
  cases a with
  | initCall => simp [applyAction, initWhatsAppClient]
  | event e =>
    cases hc : s.whatsappClient with
    | none => simpa [applyAction, hc] using h
    | some cid =>
      cases e <;> simp_all [applyAction, handleEvent, statusLive]
  | logoutOk =>
    cases hc : s.whatsappClient with
    | none => simpa [applyAction, logoutRoute, hc] using h
    | some cid => simp [applyAction, logoutRoute, hc, statusLive]
  | logoutErr msg =>
    cases hc : s.whatsappClient with
    | none => simpa [applyAction, logoutRoute, hc] using h
    | some cid => simp [applyAction, logoutRoute, hc]
  | qrcodeCall =>
    by_cases hcon : s.clientStatus = .connected
    · simp [applyAction, qrcodeRouteState, hcon]; exact h
    · cases hc : s.whatsappClient with
      | none => simp [applyAction, qrcodeRouteState, hcon, hc, initWhatsAppClient]
      | some cid => simp [applyAction, qrcodeRouteState, hcon, hc]
  | timerFire =>
    cases hpt : s.pendingTimers with
    | nil => simpa [applyAction, fireTimer, hpt] using h
    | cons t rest =>
      by_cases hlt : s.now < t
      · simpa [applyAction, fireTimer, hpt, hlt] using h
      · by_cases hd : s.clientStatus = .disconnected
        · simp [applyAction, fireTimer, hpt, hlt, hd, initWhatsAppClient]
        · simp only [applyAction, fireTimer, hpt]
          rw [if_neg hlt, if_neg hd]
          intro hl
          exact h hl
  | tick => simpa [applyAction, statusLive] using h

lemma run_statusLive (acts : List Action) :
    ∀ s : SessionState, (statusLive s → s.whatsappClient ≠ none) →
      statusLive (run s acts) → (run s acts).whatsappClient ≠ none := by
  induction acts with
  | nil => intro s hs; exact hs
  | cons a as ih =>
    intro s hs
    exact ih (applyAction s a) (applyAction_statusLive s a hs)

lemma splitChars_no_space (l : List Char) (hne : l ≠ [])
    (h : ∀ c ∈ l, c ≠ ' ') : splitChars l = [l] := by
  induction l with
  | nil => exact absurd rfl hne
  | cons c rest ih =>
    have hc : c ≠ ' ' := h c (by simp)
    by_cases hr : rest = []
    · subst hr; simp [splitChars, hc]
    · have hrec := ih hr (fun x hx => h x (by simp [hx]))
      simp [splitChars, hc, hrec]

/-! ## Claim theorems -/

/-- Claim C1, counterexample: initWhatsAppClient has no guard on the
current status, so a call made while the status is already 'connecting'
is not a no-op — starting from process start, two calls in immediate
succession construct two underlying clients (the claim says exactly
one), and the handle changes. -/
theorem C1_counterexample :
    (initWhatsAppClient initialState).clientStatus = .connecting ∧
    (initWhatsAppClient (initWhatsAppClient initialState)).clientsConstructed = 2 ∧
    initWhatsAppClient (initWhatsAppClient initialState) ≠
      initWhatsAppClient initialState := by
  decide

/-- Claim C1, amended: initWhatsAppClient is not idempotent.  Every call,
regardless of the current status, constructs one new underlying client,
replaces the handle, and sets the status to 'connecting'; hence two calls
in immediate succession construct exactly two clients.  (Guards exist
only at call sites: the qrcode route initializes only when no handle
exists, and the recovery timer only when the status is 'disconnected'.) -/
theorem C1_every_call_constructs (s : SessionState) :
    (initWhatsAppClient s).clientsConstructed = s.clientsConstructed + 1 ∧
    (initWhatsAppClient s).clientStatus = .connecting ∧
    (initWhatsAppClient s).whatsappClient = some s.clientsConstructed ∧
    (initWhatsAppClient (initWhatsAppClient s)).clientsConstructed =
      s.clientsConstructed + 2 :=
  ⟨rfl, rfl, rfl, rfl⟩

/-- Claim C2, counterexample: when the external logout raises, the
POST /api/logout handler returns the error but leaves the session state
untouched — from a connected state with a handle, after a failing logout
the status is still 'connected' and the handle is still present, so the
state is not reset as the claim says. -/
theorem C2_counterexample :
    (logoutRoute connectedState (some "boom")).2 = .failed "boom" ∧
    (logoutRoute connectedState (some "boom")).1.clientStatus = .connected ∧
    (logoutRoute connectedState (some "boom")).1.whatsappClient = some 0 := by
  decide

/-- Claim C2, amended: for every logout call with an existing client
handle, the session state is reset (status 'disconnected', handle
discarded, pairing token cleared) only when the external logout
succeeds; when it raises, the error is surfaced to the caller and the
local session state is left unchanged. -/
theorem C2_reset_only_on_success (s : SessionState) (msg : String)
    (h : s.whatsappClient ≠ none) :
    logoutRoute s none =
      ({ s with whatsappClient := none, clientStatus := .disconnected,
                qrCodeData := none }, .loggedOut) ∧
    logoutRoute s (some msg) = (s, .failed msg) := by
  cases hc : s.whatsappClient with
  | none => exact absurd hc h
  | some cid => simp [logoutRoute, hc]

/-- Witness for C2: a concrete connected state, with a failing and a
successful external logout. -/
theorem C2_reset_only_on_success_witness :
    logoutRoute connectedState (some "boom") =
      (connectedState, .failed "boom") :=
  (C2_reset_only_on_success connectedState "boom" (by decide)).2

/-- Claim C3, counterexample: after the event sequence qr then
auth_failure, the pairing token (qrCodeData) is still non-null while the
status is 'disconnected' — the auth_failure and disconnected handlers
never clear qrCodeData, refuting the invariant that the token is
non-null only while the status is 'connecting'. -/
theorem C3_counterexample :
    (run initialState
        [.initCall, .event (.qr "Q"), .event .authFailure]).qrCodeData =
      some "Q" ∧
    (run initialState
        [.initCall, .event (.qr "Q"), .event .authFailure]).clientStatus =
      .disconnected := by
  decide

/-- Claim C3, amended: the pairing token is cleared the instant the
'authenticated' event fires or the client becomes ready, and after a
'ready' event the token is absent and the status is 'connected'; but the
token is not cleared by the auth_failure and disconnected handlers, so it
can remain non-null while the status is 'disconnected'. -/
theorem C3_token_cleared (s : SessionState) (h : s.whatsappClient ≠ none) :
    (applyAction s (.event .authenticated)).qrCodeData = none ∧
    (applyAction s (.event .ready)).qrCodeData = none ∧
    (applyAction s (.event .ready)).clientStatus = .connected := by
  cases hc : s.whatsappClient with
  | none => exact absurd hc h
  | some cid => simp [applyAction, hc, handleEvent]

/-- Witness for C3: the ready event on the freshly constructed client. -/
theorem C3_token_cleared_witness :
    (applyAction (initWhatsAppClient initialState)
        (.event .ready)).qrCodeData = none ∧
    (applyAction (initWhatsAppClient initialState)
        (.event .ready)).clientStatus = .connected :=
  ⟨(C3_token_cleared (initWhatsAppClient initialState) (by decide)).2.1,
   (C3_token_cleared (initWhatsAppClient initialState) (by decide)).2.2⟩

/-- Claim C4, counterexample: after an 'auth failure' event the status
moves to 'disconnected' while the handle is retained, so a reachable
state has a non-null clientHandle with status outside
{connecting, connected}, refuting the claimed iff. -/
theorem C4_counterexample :
    (run initialState [.initCall, .event .authFailure]).whatsappClient =
      some 0 ∧
    (run initialState [.initCall, .event .authFailure]).clientStatus =
      .disconnected := by
  decide

/-- Claim C4, amended: in every state reachable by any sequence of
lifecycle events and public operations, if the status is 'connecting' or
'connected' then the client handle is non-null; the converse direction
fails, because the auth_failure handler sets the status to 'disconnected'
while retaining the handle (see the counterexample). -/
theorem C4_handle_nonnull_when_live (acts : List Action)
    (h : statusLive (run initialState acts)) :
    (run initialState acts).whatsappClient ≠ none :=
  run_statusLive acts initialState
    (fun hlive => absurd hlive (by simp [initialState, statusLive])) h

/-- Witness for C4: right after the startup initWhatsAppClient call the
status is 'connecting' and the handle exists. -/
theorem C4_handle_nonnull_when_live_witness :
    (run initialState [.initCall]).whatsappClient ≠ none :=
  C4_handle_nonnull_when_live [.initCall] (Or.inl rfl)

/-- A registered, non-self, non-group contact (isWAContact = true). -/
def aliceRegistered : WContact :=
  { idSerialized := "111@c.us"
    name := some "Alice"
    pushname := none
    number := some "111"
    isMe := false
    isGroup := false
    isWAContact := true
    isBlocked := false }

/-- A non-registered, non-self, non-group contact (isWAContact = false). -/
def bobUnregistered : WContact :=
  { idSerialized := "222@c.us"
    name := none
    pushname := some "Bob"
    number := some "222"
    isMe := false
    isGroup := false
    isWAContact := false
    isBlocked := false }

/-- Claim C5 evaluation at the failing input: the filter predicate
!isMe && !isGroup && !isWAContact drops the registered contact and keeps
only the non-registered one, the opposite of the claimed "filters out
non-registered entries".  The intended filter is evidently
contact.isWAContact (keep registered WhatsApp contacts); the code's
negation is a slip. -/
theorem C5_filter_evaluation :
    formattedContacts [aliceRegistered, bobUnregistered] =
      [{ id := "222@c.us", name := "Bob", number := some "222",
         isGroup := false, isBlocked := false }] ∧
    aliceRegistered.isMe = false ∧ aliceRegistered.isGroup = false ∧
    aliceRegistered.isWAContact = true ∧
    bobUnregistered.isWAContact = false := by
  decide

/-- Claim C6: the resolved filename extension is the fixed table entry
when the content-type is recognized (all seven entries listed); when the
MIME lookup yields nothing, it falls back to the lowercased trailing
dot-token of the URL before an optional query/fragment, else the literal
'unknown'.  Examples: content-type image/png gives a filename ending
'.png'; an unrecognized content-type with URL '.../pic.JPG?x=1' gives
extension 'jpg'; with neither, 'unknown'. -/
theorem C6_extension_resolution :
    (∀ m e url, mimeToExt m = some e → fileExtension (some m) url = e) ∧
    (∀ m url, getExtensionFromMimeType m = none →
        fileExtension m url = getExtensionFromUrl (some url)) ∧
    (∀ url ts, ∃ pre,
        (fetchMediaOk (some "image/png") url ts).filename = pre ++ ".png") ∧
    fileExtension (some "application/octet-stream") "http://h/pic.JPG?x=1" =
      "jpg" ∧
    fileExtension (some "text/plain") "http://h/file" = "unknown" ∧
    mimeToExt "image/jpeg" = some "jpg" ∧ mimeToExt "image/png" = some "png" ∧
    mimeToExt "image/gif" = some "gif" ∧ mimeToExt "audio/mpeg" = some "mp3" ∧
    mimeToExt "audio/wav" = some "wav" ∧ mimeToExt "video/mp4" = some "mp4" ∧
    mimeToExt "application/pdf" = some "pdf" := by
  refine ⟨?_, ?_, ?_, by decide, by decide, by decide, by decide, by decide,
    by decide, by decide, by decide, by decide⟩
  · intro m e url hm
    have hne : m ≠ "" := by
      intro h0; subst h0; simp [mimeToExt] at hm
    simp [fileExtension, getExtensionFromMimeType, hne, hm]
  · intro m url hm
    simp [fileExtension, hm]
  · intro url ts
    refine ⟨"media_" ++ Nat.repr ts, ?_⟩
    have hext : fileExtension (some "image/png") url = "png" := rfl
    simp only [fetchMediaOk, hext]
    apply String.ext
    simp [String.data_append]

/-- Witness for C6: a recognized MIME type resolves through the table. -/
theorem C6_extension_resolution_witness :
    fileExtension (some "image/jpeg") "http://h/x.bin" = "jpg" :=
  C6_extension_resolution.1 "image/jpeg" "jpg" "http://h/x.bin" (by decide)

/-- Claim C7: while connected, a send request with no (truthy) phone, or
with neither a (truthy) message nor media_url, returns InvalidInput with
no external call made; otherwise every dispatched sendMessage call uses
the destination obtained by stripping all non-digit characters from the
phone and appending '@c.us'. -/
theorem C7_send_validation (s : SessionState) (b : SendBody) (mediaOk : Bool)
    (hclient : s.whatsappClient ≠ none)
    (hstatus : s.clientStatus = .connected) :
    ((strTruthy b.phone = false ∨
        (strTruthy b.message = false ∧ strTruthy b.media_url = false)) →
      sendRoute s b mediaOk = (.invalidInput, [])) ∧
    (strTruthy b.phone = true →
      (strTruthy b.message = true ∨ strTruthy b.media_url = true) →
      ∀ d p, ExtCall.sendMessageCall d p ∈ (sendRoute s b mediaOk).2 →
        d = String.mk ((b.phone.getD "").data.filter Char.isDigit) ++
          "@c.us") := by
  have hconn : ¬ (s.whatsappClient = none ∨ s.clientStatus ≠ .connected) := by
    push_neg
    exact ⟨hclient, hstatus⟩
  constructor
  · intro hinv
    simp [sendRoute, hconn, hinv]
  · intro hp hmm d p hmem
    have hval : ¬ (strTruthy b.phone = false ∨
        (strTruthy b.message = false ∧ strTruthy b.media_url = false)) := by
      rcases hmm with h | h <;> simp [hp, h]
    simp only [sendRoute] at hmem
    rw [if_neg hconn, if_neg hval] at hmem
    by_cases hm : strTruthy b.media_url
    · cases mediaOk <;>
        simp_all [formatPhone]
    · simp_all [formatPhone]

/-- Witness for C7: the missing-content request is rejected with no
calls; the example phone normalizes to 15550100000@c.us. -/
theorem C7_send_validation_witness :
    sendRoute connectedState
        { phone := some "+1 (555) 010-0000", message := none,
          media_url := none, media_type := none, caption := none } true =
      (.invalidInput, []) ∧
    "15550100000@c.us" =
      String.mk ((("+1 (555) 010-0000" : String)).data.filter Char.isDigit) ++
        "@c.us" :=
  ⟨(C7_send_validation connectedState
      { phone := some "+1 (555) 010-0000", message := none,
        media_url := none, media_type := none, caption := none }
      true (by decide) (by decide)).1 (Or.inr (by decide)),
   (C7_send_validation connectedState
      { phone := some "+1 (555) 010-0000", message := some "hi",
        media_url := none, media_type := none, caption := none }
      true (by decide) (by decide)).2 (by decide) (Or.inl (by decide))
      "15550100000@c.us" (.text "hi") (by decide)⟩

/-- Claim C8: every route other than GET /health is registered with the
authenticateToken middleware; a request with no Authorization header is
rejected Unauthorized (401) and a request whose token differs from the
configured secret is rejected Forbidden (403), in both cases with the
session state returned untouched and the handler never run, whatever the
handler and state are. -/
theorem C8_auth_gate (α : Type) (r : Route) (hr : r ≠ Route.health)
    (header : Option String) (secret : String)
    (handler : SessionState → SessionState × α) (s : SessionState) :
    routeRequiresAuth r = true ∧
    (header = none →
      guardedRoute header secret handler s = (s, .unauthorized)) ∧
    (∀ t, tokenOf header = some t → t ≠ secret →
      guardedRoute header secret handler s = (s, .forbidden)) := by
  refine ⟨?_, ?_, ?_⟩
  · cases r <;> first | rfl | exact absurd rfl hr
  · rintro rfl
    simp [guardedRoute, authenticateToken, tokenOf]
  · intro t ht hne
    simp [guardedRoute, authenticateToken, ht, hne]

/-- Witness for C8: the logout route with a missing header and with a
wrong bearer token. -/
theorem C8_auth_gate_witness :
    guardedRoute none "tok" (fun s => (s, (0 : Nat))) initialState =
      (initialState, .unauthorized) ∧
    guardedRoute (some "Bearer bad") "tok" (fun s => (s, (0 : Nat)))
        initialState =
      (initialState, .forbidden) :=
  ⟨(C8_auth_gate Nat .logout (by decide) none "tok"
      (fun s => (s, (0 : Nat))) initialState).2.1 rfl,
   (C8_auth_gate Nat .logout (by decide) (some "Bearer bad") "tok"
      (fun s => (s, (0 : Nat))) initialState).2.2 "bad" (by decide)
      (by decide)⟩

/-- Claim C9: the disconnected handler arms exactly one recovery timer,
due exactly recoveryDelay = 5 time-units later; a timer cannot fire
before it is due; when a due timer fires it is consumed and it calls
initWhatsAppClient exactly when the status is still 'disconnected' at
that moment, and does nothing else (zero re-initializations) when a
manual initWhatsAppClient already moved the status away. -/
theorem C9_recovery_timer :
    (∀ s : SessionState,
        (handleEvent s .disconnectedEv).pendingTimers =
          s.pendingTimers ++ [s.now + recoveryDelay] ∧
        (handleEvent s .disconnectedEv).clientStatus = .disconnected ∧
        recoveryDelay = 5) ∧
    (∀ s t rest, s.pendingTimers = t :: rest → s.now < t →
        fireTimer s = s) ∧
    (∀ s t rest, s.pendingTimers = t :: rest → t ≤ s.now →
        s.clientStatus = .disconnected →
        fireTimer s = initWhatsAppClient { s with pendingTimers := rest }) ∧
    (∀ s t rest, s.pendingTimers = t :: rest → t ≤ s.now →
        s.clientStatus ≠ .disconnected →
        fireTimer s = { s with pendingTimers := rest }) := by
  refine ⟨fun s => ⟨rfl, rfl, rfl⟩, ?_, ?_, ?_⟩
  · intro s t rest hpt hlt
    simp only [fireTimer, hpt]
    rw [if_pos hlt]
  · intro s t rest hpt hle hd
    simp only [fireTimer, hpt]
    rw [if_neg (Nat.not_lt.mpr hle), if_pos hd]
  · intro s t rest hpt hle hd
    simp only [fireTimer, hpt]
    rw [if_neg (Nat.not_lt.mpr hle), if_neg hd]

/-- A disconnected session at the instant its recovery timer is due. -/
def dueDisconnectedState : SessionState :=
  { initialState with
    clientsConstructed := 1
    pendingTimers := [recoveryDelay]
    now := recoveryDelay }

/-- Witness for C9: a due timer in a still-disconnected state fires and
re-initializes. -/
theorem C9_recovery_timer_witness :
    fireTimer dueDisconnectedState =
      initWhatsAppClient { dueDisconnectedState with pendingTimers := [] } :=
  C9_recovery_timer.2.2.1 dueDisconnectedState recoveryDelay [] rfl
    (le_refl recoveryDelay) rfl

/-- Claim C10, counterexample: the empty-string Authorization header
contains no space, yet it is rejected Forbidden (403), not Unauthorized
(401): authHeader && authHeader.split(' ')[1] short-circuits on the falsy
empty string, so the token is the empty string rather than undefined. -/
theorem C10_counterexample :
    (∀ c ∈ ("" : String).data, c ≠ ' ') ∧
    authenticateToken (some "") "secret123" = .forbidden ∧
    authenticateToken (some "") "secret123" ≠ .unauthorized := by
  decide

/-- Claim C10, amended: the credential check does not verify the Bearer
scheme — any header whose second space-separated segment equals the
configured secret passes, whatever the first segment is (e.g. a Basic
prefix); a nonempty header containing no space at all is rejected
Unauthorized (401); the empty-string header, however, short-circuits to
an empty token and is rejected Forbidden (403) whenever the secret is
nonempty. -/
theorem C10_scheme_not_verified :
    (∀ h secret, (jsSplitSpace h)[1]? = some secret →
        authenticateToken (some h) secret = .authorized) ∧
    authenticateToken (some "Basic secret123") "secret123" = .authorized ∧
    (∀ h secret, h ≠ "" → (∀ c ∈ h.data, c ≠ ' ') →
        authenticateToken (some h) secret = .unauthorized) ∧
    (∀ secret, secret ≠ "" →
        authenticateToken (some "") secret = .forbidden) := by
  refine ⟨?_, by decide, ?_, ?_⟩
  · intro h secret hsec
    have hne : h ≠ "" := by
      intro h0
      subst h0
      have hnone : (jsSplitSpace "")[1]? = (none : Option String) := rfl
      rw [hnone] at hsec
      simp at hsec
    simp [authenticateToken, tokenOf, hne, hsec]
  · intro h secret hne hns
    have hd : h.data ≠ [] := by
      intro h0
      exact hne (String.ext (h0.trans rfl))
    have hs : splitChars h.data = [h.data] := splitChars_no_space h.data hd hns
    simp [authenticateToken, tokenOf, hne, jsSplitSpace, hs]
  · intro secret hne
    simp [authenticateToken, tokenOf, Ne.symm hne]

/-- Witness for C10: a Basic-scheme header with the right secret passes;
a nonempty spaceless header is Unauthorized. -/
theorem C10_scheme_not_verified_witness :
    authenticateToken (some "Basic hunter2") "hunter2" = .authorized ∧
    authenticateToken (some "hunter2") "hunter2" = .unauthorized :=
  ⟨C10_scheme_not_verified.1 "Basic hunter2" "hunter2" (by decide),
   C10_scheme_not_verified.2.2.1 "hunter2" "hunter2" (by decide) (by decide)⟩

end Skash
